import Mathlib

/-!
Verification development for the git-emoji-commit CLI (src/cli.js).

The source file holds two revisions of the program: a legacy CommonJS
script (first part of the file) and the current module (second part,
starting at the `STAGED_FILES_WARNING_THRESHOLD` constant).  Both are
embedded below; definitions for the legacy revision carry a `legacy`
prefix in their names.

Strings are modelled as `List Char` (abbreviated `Str`) so that every
operation is structurally recursive and kernel-evaluable; the JavaScript
string primitives used by the program (`trim`, `split`, `startsWith`,
`includes`, `String.prototype.replace` with the two concrete regexes)
are each given a dedicated definition.
-/

/-- JavaScript strings, modelled as lists of characters. -/
abbrev Str := List Char

/-- Literal helper: the character list of a Lean string literal. -/
def str (s : String) : Str := s.data

/-- `s.startsWith(p)`: the list `s` begins with the list `p`. -/
def listStartsWith : Str → Str → Bool
  | _, [] => true
  | [], _ :: _ => false
  | c :: cs, p :: ps => c = p && listStartsWith cs ps

/-- `s.includes(p)`: the list `p` occurs contiguously inside `s`. -/
def strIncludes : Str → Str → Bool
  | [], pat => pat.isEmpty
  | c :: cs, pat => listStartsWith (c :: cs) pat || strIncludes cs pat

/-- `s.split(sep)` for a one-character separator: JavaScript `split`
always yields at least one piece; splitting the empty string yields
`[""]`. -/
def splitOnChar (sep : Char) : Str → List Str
  | [] => [[]]
  | c :: cs =>
    let rest := splitOnChar sep cs
    if c = sep then [] :: rest
    else
      match rest with
      | [] => [[c]]
      | r :: rs => (c :: r) :: rs

/-- `s.trim()`: strip leading and trailing whitespace. -/
def strTrim (s : Str) : Str :=
  ((s.dropWhile Char.isWhitespace).reverse.dropWhile Char.isWhitespace).reverse

/-- `s.replace(/\:(.*)/, "")`: delete the first colon and everything
after it (the commit strings involved contain no newline, so "rest of
line" and "rest of string" coincide). -/
def stripFromColon (s : Str) : Str :=
  s.takeWhile (fun c => !(c = ':'))

/-- `s.replace(/"/, "")`: delete the first double-quote character. -/
def removeFirstQuote : Str → Str
  | [] => []
  | c :: cs => if c = '"' then cs else c :: removeFirstQuote cs

/-! ## Data model: the commit-type table of the current revision -/

/-- One entry of the `commitTypes` record: emoji, name, description. -/
structure CommitType where
  emoji : Str
  name : Str
  description : Str
deriving DecidableEq

/-- The `commitTypes` table, in object order. -/
def commitTypes : List CommitType :=
  [⟨str "📦", str "feat", str "new feature"⟩,
   ⟨str "💅", str "style", str "layout or style change"⟩,
   ⟨str "🐛", str "fix", str "fix bug"⟩,
   ⟨str "🧹", str "chore", str "update packages, gitignore etc; (no prod code)"⟩,
   ⟨str "📖", str "doc", str "documentation"⟩,
   ⟨str "🛠 ", str "refactor", str "refactoring"⟩,
   ⟨str "📝", str "content", str "content changes"⟩,
   ⟨str "✅", str "test", str "add/edit tests (no prod code)"⟩,
   ⟨str "🤞", str "try", str "add untested to production"⟩,
   ⟨str "🚀", str "build", str "build for production"⟩]

/-- The recognizable head of a message for a type: the template
string of main, emoji then two spaces then name. -/
def typeTag (t : CommitType) : Str :=
  t.emoji ++ str "  " ++ t.name

/-- `Object.values(commitTypes).find(type => commitMessage.startsWith(...))`
from main of the current revision. -/
def findCommitType (msg : Str) : Option CommitType :=
  commitTypes.find? (fun t => listStartsWith msg (typeTag t))

/-- The `validate` callback of the commit-message question: JavaScript
returns the boolean `true` on a non-empty string and the number `0`
(after logging a complaint) on the empty string; the two result kinds
are modelled by a sum. -/
def validate (value : Str) : Sum Bool Nat :=
  if value ≠ [] then Sum.inl true else Sum.inr 0

/-! ## Observable behaviour -/

/-- Outcome of one `exec` call, as the promise wrapper exposes it:
either resolution with stdout and stderr, or rejection carrying the
`code` of the error object. -/
inductive ExecOutcome where
  | success (stdout stderr : Str)
  | failure (code : Int)
deriving DecidableEq

/-- Externally observable steps of a run: console output, prompts
shown, and processes spawned.  `execCommit t m` records the call
`makeCommit(t, m)` reaching `exec`; the spawned command line is
`commitCommand t m` below.  `updateNoticeShown l` is the four-argument
coloured `console.log` of `checkVersion`. -/
inductive Event where
  | consoleLog (msg : Str)
  | consoleError (msg : Str)
  | promptMessageShown
  | promptTypeShown
  | confirmNodeModulesShown
  | confirmManyFilesShown
  | execCommit (commitType commitMessage : Str)
  | execNpmShow
  | updateNoticeShown (latest : Str)
deriving DecidableEq

/-- Console text of the `--learn` branch. -/
def learnMsg : Str :=
  str "📚 Learn more about commit types here: https://www.conventionalcommits.org/en/v1.0.0/#summary"

/-- Console text of the empty-staging branch. -/
def noFilesMsg : Str :=
  str "🤷 There are no files staged to commit. Stage some files then try again."

/-- Console text printed when a confirmation prompt is declined. -/
def cancelMsg : Str := str "❌ Commit canceled."

/-- Console text of the recognized-head branch of main. -/
def looksGoodMsg : Str := str "👍 Commit message looks good."

/-- First console.error line of the exit-code-128 branch. -/
def conflictMsg1 : Str :=
  str "Error: Committing is not possible because you have unmerged files."

/-- Second console.error line of the exit-code-128 branch. -/
def conflictMsg2 : Str := str "Please resolve the conflicts and try again."

/-- Console.error text of the catch-all error branch of makeCommit. -/
def unknownErrorMsg : Str := str "An unknown error occurred:"

/-- The excluded path fragment tested with `includes`. -/
def nodeModulesStr : Str := str "node_modules"

/-- `STAGED_FILES_WARNING_THRESHOLD` of the current revision. -/
def STAGED_FILES_WARNING_THRESHOLD : Nat := 30

/-! ## getStagedFiles, checkVersion, makeCommit (current revision) -/

/-- `getStagedFiles` on a resolved `git diff --cached --name-only`
call: `stdout.trim().split("\n")`.  (The rejection branch returns `[]`
when the error code is 1 and rethrows otherwise; the resolved case is
the one every normal run takes, since `git diff --cached --name-only`
exits 0 whether or not anything is staged.) -/
def getStagedFiles (stdout : Str) : List Str :=
  splitOnChar '\n' (strTrim stdout)

/-- The version-component comparison of the current `checkVersion`:
`latest.split(".")[0] !== current.split(".")[0] ||
 latest.split(".")[1] !== current.split(".")[1]`, with out-of-range
indexing modelled by `Option`. -/
def updateNoticeNeeded (latest current : Str) : Bool :=
  ((splitOnChar '.' latest).get? 0 != (splitOnChar '.' current).get? 0) ||
    ((splitOnChar '.' latest).get? 1 != (splitOnChar '.' current).get? 1)

/-- `checkVersion` of the current revision, on a resolved
`npm show git-emoji-commit version` call whose stdout is `npmStdout`;
`current` is the installed version imported from version.js. -/
def checkVersion (npmStdout current : Str) : List Event :=
  Event.execNpmShow ::
    (if updateNoticeNeeded (strTrim npmStdout) current then
      [Event.updateNoticeShown (strTrim npmStdout)]
    else [])

/-- `commitType.replace(/\:(.*)/, "").replace(/"/, "")` from makeCommit. -/
def commitTypeFormated (commitType : Str) : Str :=
  removeFirstQuote (stripFromColon commitType)

/-- The command line makeCommit hands to `exec`:
`git commit -m "<formatted type>: <message>"`. -/
def commitCommand (commitType commitMessage : Str) : Str :=
  str "git commit -m \"" ++ commitTypeFormated commitType ++ str ": " ++
    commitMessage ++ str "\""

/-- `makeCommit` of the current revision.  On resolution it echoes
stdout/stderr (prefixed `* ` and `# `) when non-empty and then runs
`checkVersion`; on rejection it prints the unmerged-files pair of
messages when the error code is 128 and the unknown-error message
otherwise, and returns.  No branch rethrows, retries, or calls
`process.exit`. -/
def makeCommit (commitType commitMessage : Str) (commitExec : ExecOutcome)
    (npmStdout current : Str) : List Event :=
  match commitExec with
  | .success out err =>
    Event.execCommit commitType commitMessage ::
      ((if out.length > 0 then [Event.consoleLog (str "* " ++ out)] else []) ++
        (if err.length > 0 then [Event.consoleLog (str "# " ++ err)] else []) ++
        checkVersion npmStdout current)
  | .failure code =>
    Event.execCommit commitType commitMessage ::
      (if code = 128 then
        [Event.consoleError conflictMsg1, Event.consoleError conflictMsg2]
      else [Event.consoleError unknownErrorMsg])

/-! ## main (current revision) -/

/-- Everything a single run of main consumes: the parsed `--learn`
flag, the stdout of the staged-files listing, `program.args[0]`
(`none` when absent), the answers the user would give to the two
confirmation prompts and to the two questions, and the outcomes of the
spawned processes.  Inquirer only returns a commit-message answer the
`validate` callback accepted; theorems carry that as a hypothesis on
`answerMessage` where it matters. -/
structure MainInput where
  learn : Bool
  stagedStdout : Str
  args0 : Option Str
  nmProceed : Bool
  manyProceed : Bool
  answerMessage : Str
  answerType : Str
  commitExec : ExecOutcome
  npmStdout : Str
  currentVersion : Str
deriving DecidableEq

/-- The `inquirer.prompt(questions)` path with no usable
`program.args[0]`: the message question is shown (its `when` holds),
then the type list, then `makeCommit(answers.commitType,
answers.commitMessage)`. -/
def interactiveEvents (inp : MainInput) : List Event :=
  Event.promptMessageShown :: Event.promptTypeShown ::
    makeCommit inp.answerType inp.answerMessage inp.commitExec
      inp.npmStdout inp.currentVersion

/-- The tail of main after the staged-files gates: dispatch on
`program.args[0]` (`!commitMessage` is true for `undefined` and for the
empty string), then on whether the message starts with a recognized
type tag.  With an unrecognized non-empty message only the type
question is shown (the message question's `when` is false) and the
message is committed; with a recognized head main only prints the
looks-good line and ends. -/
def commitPhase (inp : MainInput) : List Event :=
  match inp.args0 with
  | none => interactiveEvents inp
  | some msg =>
    if msg = [] then interactiveEvents inp
    else
      match findCommitType msg with
      | none =>
        Event.promptTypeShown ::
          makeCommit inp.answerType msg inp.commitExec inp.npmStdout
            inp.currentVersion
      | some _ => [Event.consoleLog looksGoodMsg]

/-- The event trace of a run of main of the current revision: the
`--learn` early return, the three staged-files gates in order (empty
list, `node_modules` confirmation, many-files confirmation), then the
commit phase. -/
def mainEvents (inp : MainInput) : List Event :=
  if inp.learn then [Event.consoleLog learnMsg]
  else
    let stagedFiles := getStagedFiles inp.stagedStdout
    if stagedFiles.length = 0 then [Event.consoleLog noFilesMsg]
    else
      let hasNM := stagedFiles.any (fun f => strIncludes f nodeModulesStr)
      let nmEvs := if hasNM then [Event.confirmNodeModulesShown] else []
      if hasNM && !inp.nmProceed then nmEvs ++ [Event.consoleLog cancelMsg]
      else
        let hasMany := decide (stagedFiles.length > STAGED_FILES_WARNING_THRESHOLD)
        let manyEvs := if hasMany then [Event.confirmManyFilesShown] else []
        if hasMany && !inp.manyProceed then
          nmEvs ++ manyEvs ++ [Event.consoleLog cancelMsg]
        else nmEvs ++ manyEvs ++ commitPhase inp

/-- Result of one whole process run: the event trace and the process
exit status.  The script installs no `process.exit` call and makeCommit
catches every commit error, so the async main settles normally and the
node process exits with status 0 on every modelled path. -/
structure RunResult where
  events : List Event
  exitCode : Nat
deriving DecidableEq

/-- One whole run of the current revision. -/
def mainRun (inp : MainInput) : RunResult :=
  ⟨mainEvents inp, 0⟩

/-! ## Legacy revision: option declarations and flag dispatch -/

/-- One `.option(...)` declaration: short form, long form, the
property commander sets on `program`, and the description. -/
structure LegacyOption where
  short : Str
  long : Str
  flagName : Str
  description : Str
deriving DecidableEq

/-- The eight `.option` declarations of the legacy revision, in source
order. -/
def legacyOptions : List LegacyOption :=
  [⟨str "-s", str "--style", str "style", str "edit/add styles"⟩,
   ⟨str "-b", str "--bug", str "bug", str "squash bugs"⟩,
   ⟨str "-i", str "--improve", str "improve", str "refactor or rework"⟩,
   ⟨str "-r", str "--release", str "release", str "release feature"⟩,
   ⟨str "-n", str "--new", str "new", str "add new feature"⟩,
   ⟨str "-d", str "--doc", str "doc", str "add/edit documentation"⟩,
   ⟨str "-r", str "--try", str "try", str "add untested to production"⟩,
   ⟨str "-t", str "--test", str "test", str "add/edit test"⟩]

/-- The flag properties commander sets on the legacy `program` object. -/
structure LegacyFlags where
  style : Bool
  bug : Bool
  improve : Bool
  release : Bool
  new : Bool
  doc : Bool
  tryFlag : Bool
  test : Bool
deriving DecidableEq

/-- The legacy if/else-if dispatch: the fixed type label the commit
message is prefixed with, or `none` for the interactive fallthrough. -/
def legacyCommitLabel (fl : LegacyFlags) : Option Str :=
  if fl.style then some (str "💅  STYLE")
  else if fl.bug then some (str "🐛  BUG")
  else if fl.improve then some (str "⚡  IMPROVE")
  else if fl.release then some (str "🚀  RELEASE")
  else if fl.new then some (str "📦  NEW")
  else if fl.doc then some (str "📖  DOC")
  else if fl.tryFlag then some (str "🤞  TRY")
  else if fl.test then some (str "✅  TEST")
  else none

/-- The command the legacy dispatch hands to makeCommit:
`git commit -m "<LABEL>: <args>"` (with `args` the interpolation of
`program.args`). -/
def legacyCommitCommand (fl : LegacyFlags) (args : Str) : Option Str :=
  (legacyCommitLabel fl).map
    (fun l => str "git commit -m \"" ++ l ++ str ": " ++ args ++ str "\"")

/-- Flag state with exactly the style flag set. -/
def onlyStyle : LegacyFlags := ⟨true, false, false, false, false, false, false, false⟩

/-- Flag state with exactly the bug flag set. -/
def onlyBug : LegacyFlags := ⟨false, true, false, false, false, false, false, false⟩

/-- Flag state with exactly the improve flag set. -/
def onlyImprove : LegacyFlags := ⟨false, false, true, false, false, false, false, false⟩

/-- Flag state with exactly the release flag set. -/
def onlyRelease : LegacyFlags := ⟨false, false, false, true, false, false, false, false⟩

/-- Flag state with exactly the new flag set. -/
def onlyNew : LegacyFlags := ⟨false, false, false, false, true, false, false, false⟩

/-- Flag state with exactly the doc flag set. -/
def onlyDoc : LegacyFlags := ⟨false, false, false, false, false, true, false, false⟩

/-- Flag state with exactly the try flag set. -/
def onlyTry : LegacyFlags := ⟨false, false, false, false, false, false, true, false⟩

/-- Flag state with exactly the test flag set. -/
def onlyTest : LegacyFlags := ⟨false, false, false, false, false, false, false, true⟩

/-- The short forms of the current revision's `.option` declarations,
in source order. -/
def currentOptionShorts : List Str :=
  [str "-f", str "-s", str "-x", str "-c", str "-d", str "-r", str "-t",
   str "-y", str "-b"]

/-! ## Helper lemmas -/

/-- JavaScript `split` never returns an empty array. -/
theorem splitOnChar_ne_nil (sep : Char) (s : Str) : splitOnChar sep s ≠ [] := by
  match s with
  | [] => simp [splitOnChar]
  | c :: cs =>
    simp only [splitOnChar]
    split
    · simp
    · split <;> simp

/-- `getStagedFiles` always yields at least one entry, whatever the
stdout of the diff was. -/
theorem getStagedFiles_length_pos (stdout : Str) :
    0 < (getStagedFiles stdout).length :=
  List.length_pos.mpr (splitOnChar_ne_nil '\n' (strTrim stdout))

/-- No commit type recognizes the empty message. -/
theorem findCommitType_nil : findCommitType [] = none := by decide

/-- An element of a conditionally-singleton list is that element. -/
theorem mem_ite_singleton {α : Type} {c : Prop} [Decidable c] {x e : α}
    (h : e ∈ (if c then [x] else [])) : e = x := by
  split at h <;> simp_all

/-- The prompt-shaped events: these are produced only by main itself,
never by makeCommit or checkVersion. -/
def promptEvent : Event → Bool
  | .promptMessageShown => true
  | .promptTypeShown => true
  | .confirmNodeModulesShown => true
  | .confirmManyFilesShown => true
  | _ => false

/-- Inventory of checkVersion events. -/
theorem mem_checkVersion_elim {e : Event} {np cur : Str}
    (h : e ∈ checkVersion np cur) :
    e = Event.execNpmShow ∨ e = Event.updateNoticeShown (strTrim np) := by
  simp only [checkVersion, List.mem_cons] at h
  rcases h with rfl | h
  · exact Or.inl rfl
  · exact Or.inr (mem_ite_singleton h)

/-- makeCommit never shows a prompt. -/
theorem mem_makeCommit_promptEvent {e : Event} {ty ms : Str}
    {ex : ExecOutcome} {np cur : Str} (h : e ∈ makeCommit ty ms ex np cur) :
    promptEvent e = false := by
  cases ex with
  | success out err =>
    simp only [makeCommit, List.mem_cons, List.mem_append] at h
    rcases h with rfl | ((h | h) | h)
    · rfl
    · rw [mem_ite_singleton h]; rfl
    · rw [mem_ite_singleton h]; rfl
    · rcases mem_checkVersion_elim h with rfl | rfl <;> rfl
  | failure code =>
    simp only [makeCommit, List.mem_cons] at h
    rcases h with rfl | h
    · rfl
    · split at h
      · simp only [List.mem_cons, List.not_mem_nil, or_false] at h
        rcases h with rfl | rfl <;> rfl
      · simp only [List.mem_singleton] at h
        subst h; rfl

/-- The only `execCommit` event makeCommit can emit records exactly the
type and message it was called with. -/
theorem mem_makeCommit_execCommit {t m ty ms : Str} {ex : ExecOutcome}
    {np cur : Str} :
    Event.execCommit t m ∈ makeCommit ty ms ex np cur ↔ t = ty ∧ m = ms := by
  constructor
  · intro h
    cases ex with
    | success out err =>
      simp only [makeCommit, List.mem_cons, List.mem_append] at h
      rcases h with h | ((h | h) | h)
      · simpa using h
      · have := mem_ite_singleton h; simp at this
      · have := mem_ite_singleton h; simp at this
      · rcases mem_checkVersion_elim h with h | h <;> simp at h
    | failure code =>
      simp only [makeCommit, List.mem_cons] at h
      rcases h with h | h
      · simpa using h
      · split at h <;> simp at h
  · rintro ⟨rfl, rfl⟩
    cases ex <;> simp only [makeCommit] <;> exact List.mem_cons_self _ _

/-- Inventory of commit-phase events: the two questions, the looks-good
line, or something makeCommit emits (never a prompt). -/
theorem mem_commitPhase_elim {e : Event} {inp : MainInput}
    (h : e ∈ commitPhase inp) :
    e = Event.promptMessageShown ∨ e = Event.promptTypeShown ∨
      e = Event.consoleLog looksGoodMsg ∨ promptEvent e = false := by
  cases h0 : inp.args0 with
  | none =>
    simp only [commitPhase, h0, interactiveEvents, List.mem_cons] at h
    rcases h with rfl | rfl | h
    · exact Or.inl rfl
    · exact Or.inr (Or.inl rfl)
    · exact Or.inr (Or.inr (Or.inr (mem_makeCommit_promptEvent h)))
  | some msg =>
    simp only [commitPhase, h0] at h
    by_cases he : msg = []
    · rw [if_pos he] at h
      simp only [interactiveEvents, List.mem_cons] at h
      rcases h with rfl | rfl | h
      · exact Or.inl rfl
      · exact Or.inr (Or.inl rfl)
      · exact Or.inr (Or.inr (Or.inr (mem_makeCommit_promptEvent h)))
    · rw [if_neg he] at h
      cases hf : findCommitType msg with
      | none =>
        rw [hf] at h
        simp only [List.mem_cons] at h
        rcases h with rfl | h
        · exact Or.inr (Or.inl rfl)
        · exact Or.inr (Or.inr (Or.inr (mem_makeCommit_promptEvent h)))
      | some ty =>
        rw [hf] at h
        simp only [List.mem_singleton] at h
        subst h
        exact Or.inr (Or.inr (Or.inl rfl))

/-- The node-modules confirmation is never produced by the commit
phase. -/
theorem confirmNM_not_mem_commitPhase (inp : MainInput) :
    Event.confirmNodeModulesShown ∉ commitPhase inp := by
  intro h
  rcases mem_commitPhase_elim h with h | h | h | h <;> simp [promptEvent] at h

/-- The many-files confirmation is never produced by the commit phase. -/
theorem confirmMany_not_mem_commitPhase (inp : MainInput) :
    Event.confirmManyFilesShown ∉ commitPhase inp := by
  intro h
  rcases mem_commitPhase_elim h with h | h | h | h <;> simp [promptEvent] at h

/-- With a free-text argument whose head is recognized, the commit
phase is just the looks-good line. -/
theorem commitPhase_recognized {inp : MainInput} {msg : Str}
    (h0 : inp.args0 = some msg) (h1 : (findCommitType msg).isSome = true) :
    commitPhase inp = [Event.consoleLog looksGoodMsg] := by
  have hmsg : msg ≠ [] := by
    intro he
    rw [he, findCommitType_nil] at h1
    simp at h1
  simp only [commitPhase, h0, if_neg hmsg]
  cases hf : findCommitType msg with
  | none => rw [hf] at h1; simp at h1
  | some ty => rfl

/-- Any `execCommit` event of the commit phase carries either the
answer to the message question or the non-empty free-text argument. -/
theorem execCommit_mem_commitPhase {t m : Str} {inp : MainInput}
    (h : Event.execCommit t m ∈ commitPhase inp) :
    m = inp.answerMessage ∨ (inp.args0 = some m ∧ m ≠ []) := by
  cases h0 : inp.args0 with
  | none =>
    simp only [commitPhase, h0] at h
    simp only [interactiveEvents, List.mem_cons] at h
    rcases h with h | h | h
    · simp at h
    · simp at h
    · exact Or.inl (mem_makeCommit_execCommit.mp h).2
  | some msg =>
    simp only [commitPhase, h0] at h
    by_cases he : msg = []
    · rw [if_pos he] at h
      simp only [interactiveEvents, List.mem_cons] at h
      rcases h with h | h | h
      · simp at h
      · simp at h
      · exact Or.inl (mem_makeCommit_execCommit.mp h).2
    · rw [if_neg he] at h
      cases hf : findCommitType msg with
      | none =>
        rw [hf] at h
        simp only [List.mem_cons] at h
        rcases h with h | h
        · simp at h
        · obtain ⟨h1, h2⟩ := mem_makeCommit_execCommit.mp h
          subst h2
          exact Or.inr ⟨rfl, he⟩
      | some ty =>
        rw [hf] at h
        simp at h

/-- If the type question was shown and a free-text argument was
present, that argument bore no recognized head. -/
theorem promptType_mem_commitPhase {inp : MainInput} {msg : Str}
    (h0 : inp.args0 = some msg)
    (h : Event.promptTypeShown ∈ commitPhase inp) :
    findCommitType msg = none := by
  by_cases he : msg = []
  · rw [he]; exact findCommitType_nil
  · simp only [commitPhase, h0, if_neg he] at h
    cases hf : findCommitType msg with
    | none => rfl
    | some ty =>
      rw [hf] at h
      simp at h

/-- Complete case split of a run of main: the learn branch, the
(unreachable) empty-list branch, the two cancellation outcomes, and the
four ways of reaching the commit phase. -/
theorem mainEvents_characterization (inp : MainInput) :
    (inp.learn = true ∧ mainEvents inp = [Event.consoleLog learnMsg]) ∨
    (inp.learn = false ∧ (getStagedFiles inp.stagedStdout).length = 0 ∧
      mainEvents inp = [Event.consoleLog noFilesMsg]) ∨
    (inp.learn = false ∧ (getStagedFiles inp.stagedStdout).length ≠ 0 ∧
      (getStagedFiles inp.stagedStdout).any
        (fun f => strIncludes f nodeModulesStr) = true ∧
      inp.nmProceed = false ∧
      mainEvents inp =
        [Event.confirmNodeModulesShown, Event.consoleLog cancelMsg]) ∨
    (inp.learn = false ∧ (getStagedFiles inp.stagedStdout).length ≠ 0 ∧
      (getStagedFiles inp.stagedStdout).any
        (fun f => strIncludes f nodeModulesStr) = true ∧
      inp.nmProceed = true ∧
      STAGED_FILES_WARNING_THRESHOLD < (getStagedFiles inp.stagedStdout).length ∧
      inp.manyProceed = false ∧
      mainEvents inp =
        [Event.confirmNodeModulesShown, Event.confirmManyFilesShown,
          Event.consoleLog cancelMsg]) ∨
    (inp.learn = false ∧ (getStagedFiles inp.stagedStdout).length ≠ 0 ∧
      (getStagedFiles inp.stagedStdout).any
        (fun f => strIncludes f nodeModulesStr) = false ∧
      STAGED_FILES_WARNING_THRESHOLD < (getStagedFiles inp.stagedStdout).length ∧
      inp.manyProceed = false ∧
      mainEvents inp =
        [Event.confirmManyFilesShown, Event.consoleLog cancelMsg]) ∨
    (inp.learn = false ∧ (getStagedFiles inp.stagedStdout).length ≠ 0 ∧
      (getStagedFiles inp.stagedStdout).any
        (fun f => strIncludes f nodeModulesStr) = true ∧
      inp.nmProceed = true ∧
      STAGED_FILES_WARNING_THRESHOLD < (getStagedFiles inp.stagedStdout).length ∧
      inp.manyProceed = true ∧
      mainEvents inp =
        Event.confirmNodeModulesShown :: Event.confirmManyFilesShown ::
          commitPhase inp) ∨
    (inp.learn = false ∧ (getStagedFiles inp.stagedStdout).length ≠ 0 ∧
      (getStagedFiles inp.stagedStdout).any
        (fun f => strIncludes f nodeModulesStr) = true ∧
      inp.nmProceed = true ∧
      ¬ STAGED_FILES_WARNING_THRESHOLD < (getStagedFiles inp.stagedStdout).length ∧
      mainEvents inp = Event.confirmNodeModulesShown :: commitPhase inp) ∨
    (inp.learn = false ∧ (getStagedFiles inp.stagedStdout).length ≠ 0 ∧
      (getStagedFiles inp.stagedStdout).any
        (fun f => strIncludes f nodeModulesStr) = false ∧
      STAGED_FILES_WARNING_THRESHOLD < (getStagedFiles inp.stagedStdout).length ∧
      inp.manyProceed = true ∧
      mainEvents inp = Event.confirmManyFilesShown :: commitPhase inp) ∨
    (inp.learn = false ∧ (getStagedFiles inp.stagedStdout).length ≠ 0 ∧
      (getStagedFiles inp.stagedStdout).any
        (fun f => strIncludes f nodeModulesStr) = false ∧
      ¬ STAGED_FILES_WARNING_THRESHOLD < (getStagedFiles inp.stagedStdout).length ∧
      mainEvents inp = commitPhase inp) := by
  by_cases hL : inp.learn = true
  · exact Or.inl ⟨hL, by simp [mainEvents, hL]⟩
  · have hL' : inp.learn = false := by revert hL; cases inp.learn <;> simp
    by_cases hZ : (getStagedFiles inp.stagedStdout).length = 0
    · exact Or.inr (Or.inl ⟨hL', hZ, by simp [mainEvents, hL', hZ]⟩)
    · by_cases hNM : (getStagedFiles inp.stagedStdout).any
        (fun f => strIncludes f nodeModulesStr) = true
      · by_cases hP : inp.nmProceed = true
        · by_cases hM : STAGED_FILES_WARNING_THRESHOLD <
            (getStagedFiles inp.stagedStdout).length
          · by_cases hQ : inp.manyProceed = true
            · refine Or.inr (Or.inr (Or.inr (Or.inr (Or.inr (Or.inl
                ⟨hL', hZ, hNM, hP, hM, hQ, ?_⟩)))))
              simp [mainEvents, hL', hZ, hNM, hP, hM, hQ]
            · have hQ' : inp.manyProceed = false := by
                revert hQ; cases inp.manyProceed <;> simp
              refine Or.inr (Or.inr (Or.inr (Or.inl
                ⟨hL', hZ, hNM, hP, hM, hQ', ?_⟩)))
              simp [mainEvents, hL', hZ, hNM, hP, hM, hQ']
          · refine Or.inr (Or.inr (Or.inr (Or.inr (Or.inr (Or.inr (Or.inl
              ⟨hL', hZ, hNM, hP, hM, ?_⟩))))))
            simp [mainEvents, hL', hZ, hNM, hP, hM]
        · have hP' : inp.nmProceed = false := by
            revert hP; cases inp.nmProceed <;> simp
          refine Or.inr (Or.inr (Or.inl ⟨hL', hZ, hNM, hP', ?_⟩))
          simp [mainEvents, hL', hZ, hNM, hP']
      · have hNM' : (getStagedFiles inp.stagedStdout).any
            (fun f => strIncludes f nodeModulesStr) = false := by
          revert hNM
          cases (getStagedFiles inp.stagedStdout).any
            (fun f => strIncludes f nodeModulesStr) <;> simp
        by_cases hM : STAGED_FILES_WARNING_THRESHOLD <
          (getStagedFiles inp.stagedStdout).length
        · by_cases hQ : inp.manyProceed = true
          · refine Or.inr (Or.inr (Or.inr (Or.inr (Or.inr (Or.inr (Or.inr
              (Or.inl ⟨hL', hZ, hNM', hM, hQ, ?_⟩)))))))
            simp [mainEvents, hL', hZ, hNM', hM, hQ]
          · have hQ' : inp.manyProceed = false := by
              revert hQ; cases inp.manyProceed <;> simp
            refine Or.inr (Or.inr (Or.inr (Or.inr (Or.inl
              ⟨hL', hZ, hNM', hM, hQ', ?_⟩))))
            simp [mainEvents, hL', hZ, hNM', hM, hQ']
        · refine Or.inr (Or.inr (Or.inr (Or.inr (Or.inr (Or.inr (Or.inr
            (Or.inr ⟨hL', hZ, hNM', hM, ?_⟩)))))))
          simp [mainEvents, hL', hZ, hNM', hM]

/-- Any execCommit event of a whole run happens inside the commit
phase. -/
theorem execCommit_mem_mainEvents {t m : Str} {inp : MainInput}
    (h : Event.execCommit t m ∈ mainEvents inp) :
    Event.execCommit t m ∈ commitPhase inp := by
  rcases mainEvents_characterization inp with
    ⟨_, hE⟩ | ⟨_, _, hE⟩ | ⟨_, _, _, _, hE⟩ | ⟨_, _, _, _, _, _, hE⟩ |
    ⟨_, _, _, _, _, hE⟩ | ⟨_, _, _, _, _, _, hE⟩ | ⟨_, _, _, _, _, hE⟩ |
    ⟨_, _, _, _, _, hE⟩ | ⟨_, _, _, _, hE⟩ <;>
    rw [hE] at h <;> (try simp at h) <;> exact h

/-- Any type-question event of a whole run happens inside the commit
phase. -/
theorem promptType_mem_mainEvents {inp : MainInput}
    (h : Event.promptTypeShown ∈ mainEvents inp) :
    Event.promptTypeShown ∈ commitPhase inp := by
  rcases mainEvents_characterization inp with
    ⟨_, hE⟩ | ⟨_, _, hE⟩ | ⟨_, _, _, _, hE⟩ | ⟨_, _, _, _, _, _, hE⟩ |
    ⟨_, _, _, _, _, hE⟩ | ⟨_, _, _, _, _, _, hE⟩ | ⟨_, _, _, _, _, hE⟩ |
    ⟨_, _, _, _, _, hE⟩ | ⟨_, _, _, _, hE⟩ <;>
    rw [hE] at h <;> (try simp at h) <;> exact h

/-- Any event of a whole run that is not one of the five gate-produced
events happens inside the commit phase. -/
theorem nonGate_mem_mainEvents {e : Event} {inp : MainInput}
    (h : e ∈ mainEvents inp)
    (h1 : e ≠ Event.consoleLog learnMsg) (h2 : e ≠ Event.consoleLog noFilesMsg)
    (h3 : e ≠ Event.consoleLog cancelMsg)
    (h4 : e ≠ Event.confirmNodeModulesShown)
    (h5 : e ≠ Event.confirmManyFilesShown) : e ∈ commitPhase inp := by
  rcases mainEvents_characterization inp with
    ⟨_, hE⟩ | ⟨_, _, hE⟩ | ⟨_, _, _, _, hE⟩ | ⟨_, _, _, _, _, _, hE⟩ |
    ⟨_, _, _, _, _, hE⟩ | ⟨_, _, _, _, _, _, hE⟩ | ⟨_, _, _, _, _, hE⟩ |
    ⟨_, _, _, _, _, hE⟩ | ⟨_, _, _, _, hE⟩ <;> rw [hE] at h <;>
    (try simp only [List.mem_cons, List.mem_singleton, List.not_mem_nil,
      or_false] at h)
  · exact absurd h h1
  · exact absurd h h2
  · rcases h with h | h
    · exact absurd h h4
    · exact absurd h h3
  · rcases h with h | h | h
    · exact absurd h h4
    · exact absurd h h5
    · exact absurd h h3
  · rcases h with h | h
    · exact absurd h h5
    · exact absurd h h3
  · rcases h with h | h | h
    · exact absurd h h4
    · exact absurd h h5
    · exact h
  · rcases h with h | h
    · exact absurd h h4
    · exact h
  · rcases h with h | h
    · exact absurd h h5
    · exact h
  · exact h

/-! ## Claims -/

/-- Claim C1: the commit-message validation returns the boolean true on
every non-empty string and the non-true value 0 on the empty string,
and consequently no run ever reaches `exec` with a commit whose user
message is empty. -/
theorem C1_empty_message_rejected :
    (∀ v : Str, v ≠ [] → validate v = Sum.inl true) ∧
    validate [] = Sum.inr 0 ∧
    (∀ inp : MainInput, validate inp.answerMessage = Sum.inl true →
      ∀ t m : Str, Event.execCommit t m ∈ (mainRun inp).events → m ≠ []) := by
  refine ⟨?_, ?_, ?_⟩
  · intro v hv; simp [validate, hv]
  · simp [validate]
  · intro inp hv t m hmem
    have hans : inp.answerMessage ≠ [] := by
      intro he
      rw [validate, if_neg (by simp [he])] at hv
      exact absurd hv (by simp)
    have hcp : Event.execCommit t m ∈ commitPhase inp :=
      execCommit_mem_mainEvents hmem
    rcases execCommit_mem_commitPhase hcp with h | ⟨_, h2⟩
    · rw [h]; exact hans
    · exact h2

/-- Witness for C1 at concrete strings. -/
theorem C1_empty_message_rejected_witness :
    (str "hi" ≠ [] ∧ validate (str "hi") = Sum.inl true) ∧
      validate [] = Sum.inr 0 :=
  ⟨⟨by decide, C1_empty_message_rejected.1 (str "hi") (by decide)⟩,
    C1_empty_message_rejected.2.1⟩

/-- Claim C2: a free-text message bearing a recognized type head (a
known emoji, two spaces, the type name) is accepted without showing the
type-selection prompt, and that prompt is shown only when the message
bears no recognized head. -/
theorem C2_recognized_head_skips_prompt :
    ∀ (inp : MainInput) (msg : Str), inp.args0 = some msg →
      ((findCommitType msg).isSome = true →
        Event.promptTypeShown ∉ (mainRun inp).events) ∧
      (Event.promptTypeShown ∈ (mainRun inp).events →
        findCommitType msg = none) := by
  intro inp msg h0
  have key : Event.promptTypeShown ∈ (mainRun inp).events →
      findCommitType msg = none := fun hmem =>
    promptType_mem_commitPhase h0 (promptType_mem_mainEvents hmem)
  refine ⟨?_, key⟩
  intro hs hmem
  rw [key hmem] at hs
  simp at hs

/-- Concrete run for the C2 witness: the staged file is ordinary and
the free-text message bears the feat head. -/
def recognizedHeadInput : MainInput :=
  ⟨false, str "a.txt", some (str "📦  feat: add button"), true, true,
    str "fallback message", str "feat 📦: new feature",
    ExecOutcome.success [] [], str "1.0.0", str "1.0.0"⟩

/-- Witness for C2 at a concrete run. -/
theorem C2_recognized_head_skips_prompt_witness :
    recognizedHeadInput.args0 = some (str "📦  feat: add button") ∧
      Event.promptTypeShown ∉ (mainRun recognizedHeadInput).events :=
  ⟨rfl, (C2_recognized_head_skips_prompt recognizedHeadInput
    (str "📦  feat: add button") rfl).1 (by decide)⟩

/-- Recognizer for the commit-spawning event. -/
def isExecCommitEvent : Event → Bool
  | .execCommit _ _ => true
  | _ => false

/-- Claim C7: a failing commit is classified by exit code, 128 giving
the two unmerged-files lines and every other code the unknown-error
line; either way exactly one commit was attempted (no retry). -/
theorem C7_commit_failure_classified :
    ∀ (t m : Str) (code : Int) (np cur : Str),
      (code = 128 →
        makeCommit t m (ExecOutcome.failure code) np cur =
          [Event.execCommit t m, Event.consoleError conflictMsg1,
            Event.consoleError conflictMsg2]) ∧
      (code ≠ 128 →
        makeCommit t m (ExecOutcome.failure code) np cur =
          [Event.execCommit t m, Event.consoleError unknownErrorMsg]) ∧
      (makeCommit t m (ExecOutcome.failure code) np cur).countP
          isExecCommitEvent = 1 := by
  intro t m code np cur
  refine ⟨?_, ?_, ?_⟩
  · intro h; simp [makeCommit, h]
  · intro h; simp [makeCommit, h]
  · by_cases h : code = 128 <;>
      simp [makeCommit, h, List.countP_cons, isExecCommitEvent]

/-- Witness for C7 at exit codes 128 and 1. -/
theorem C7_commit_failure_classified_witness :
    makeCommit (str "t") (str "m") (ExecOutcome.failure 128) [] [] =
      [Event.execCommit (str "t") (str "m"), Event.consoleError conflictMsg1,
        Event.consoleError conflictMsg2] ∧
    makeCommit (str "t") (str "m") (ExecOutcome.failure 1) [] [] =
      [Event.execCommit (str "t") (str "m"),
        Event.consoleError unknownErrorMsg] :=
  ⟨(C7_commit_failure_classified (str "t") (str "m") 128 [] []).1 rfl,
    (C7_commit_failure_classified (str "t") (str "m") 1 [] []).2.1 (by decide)⟩

/-- The update notice appears in checkVersion exactly when the
component comparison fires. -/
theorem updateNotice_mem_checkVersion {np cur l : Str} :
    Event.updateNoticeShown l ∈ checkVersion np cur ↔
      (l = strTrim np ∧ updateNoticeNeeded (strTrim np) cur = true) := by
  simp only [checkVersion, List.mem_cons]
  constructor
  · rintro (h | h)
    · simp at h
    · split at h
      · simp only [List.mem_singleton] at h
        injection h with h
        exact ⟨h, by assumption⟩
      · simp at h
  · rintro ⟨rfl, hcond⟩
    right
    simp [hcond]

/-- Claim C8: after a successful commit the registry is consulted, and
the update notice is printed if and only if the published version
differs from the installed one in its major or minor component; a
difference only in the patch component prints nothing. -/
theorem C8_update_notice :
    ∀ (t m out err np cur a b c a2 b2 c2 : Str),
      splitOnChar '.' (strTrim np) = [a, b, c] →
      splitOnChar '.' cur = [a2, b2, c2] →
      Event.execNpmShow ∈ makeCommit t m (ExecOutcome.success out err) np cur ∧
      (Event.updateNoticeShown (strTrim np) ∈
          makeCommit t m (ExecOutcome.success out err) np cur ↔
        (a ≠ a2 ∨ b ≠ b2)) ∧
      (a = a2 → b = b2 → c ≠ c2 →
        Event.updateNoticeShown (strTrim np) ∉
          makeCommit t m (ExecOutcome.success out err) np cur) := by
  intro t m out err np cur a b c a2 b2 c2 h1 h2
  have hmemCV : ∀ e : Event, e ∈ checkVersion np cur →
      e ∈ makeCommit t m (ExecOutcome.success out err) np cur := by
    intro e he
    simp only [makeCommit, List.mem_cons, List.mem_append]
    tauto
  have hnotice : updateNoticeNeeded (strTrim np) cur = true ↔
      (a ≠ a2 ∨ b ≠ b2) := by
    simp [updateNoticeNeeded, h1, h2]
  have hiff : Event.updateNoticeShown (strTrim np) ∈
      makeCommit t m (ExecOutcome.success out err) np cur ↔
      (a ≠ a2 ∨ b ≠ b2) := by
    constructor
    · intro hm
      have hcv : Event.updateNoticeShown (strTrim np) ∈ checkVersion np cur := by
        simp only [makeCommit, List.mem_cons, List.mem_append] at hm
        rcases hm with h | ((h | h) | h)
        · simp at h
        · have := mem_ite_singleton h; simp at this
        · have := mem_ite_singleton h; simp at this
        · exact h
      exact hnotice.mp (updateNotice_mem_checkVersion.mp hcv).2
    · intro hor
      exact hmemCV _ (updateNotice_mem_checkVersion.mpr ⟨rfl, hnotice.mpr hor⟩)
  refine ⟨hmemCV _ (by simp [checkVersion]), hiff, ?_⟩
  intro ha hb _ hm
  rcases hiff.mp hm with h | h
  · exact h ha
  · exact h hb

/-- Witness for C8: installed 1.2.9, published 1.3.0 (minor bump shows
the notice). -/
theorem C8_update_notice_witness :
    Event.execNpmShow ∈ makeCommit (str "t") (str "m")
      (ExecOutcome.success [] []) (str "1.3.0\n") (str "1.2.9") ∧
    Event.updateNoticeShown (strTrim (str "1.3.0\n")) ∈
      makeCommit (str "t") (str "m") (ExecOutcome.success [] [])
        (str "1.3.0\n") (str "1.2.9") :=
  ⟨(C8_update_notice (str "t") (str "m") [] [] (str "1.3.0\n") (str "1.2.9")
      (str "1") (str "3") (str "0") (str "1") (str "2") (str "9")
      (by decide) (by decide)).1,
    (C8_update_notice (str "t") (str "m") [] [] (str "1.3.0\n") (str "1.2.9")
      (str "1") (str "3") (str "0") (str "1") (str "2") (str "9")
      (by decide) (by decide)).2.1.mpr (Or.inr (by decide))⟩


/-- Claim C3 counterexample: the legacy declarations register the short
form -r twice, once for --release and once for --try, so two flags
share a short form. -/
theorem C3_counterexample_shared_short_form :
    (legacyOptions.map LegacyOption.short) =
      [str "-s", str "-b", str "-i", str "-r", str "-n", str "-d",
        str "-r", str "-t"] ∧
    ¬ (legacyOptions.map LegacyOption.short).Nodup := by decide

/-- Claim C3 (amended): each flag, passed alone, yields a commit
command prefixed by exactly its fixed label and depending on nothing
but the flag; the eight labels are pairwise distinct; the current
revision's short forms are pairwise distinct; and the only coincidence
among the legacy short forms is -r, declared for both --release
(index 3) and --try (index 6). -/
theorem C3_amended_flag_dispatch :
    ∀ args : Str,
      legacyCommitCommand onlyStyle args =
        some (str "git commit -m \"💅  STYLE: " ++ (args ++ str "\"")) ∧
      legacyCommitCommand onlyBug args =
        some (str "git commit -m \"🐛  BUG: " ++ (args ++ str "\"")) ∧
      legacyCommitCommand onlyImprove args =
        some (str "git commit -m \"⚡  IMPROVE: " ++ (args ++ str "\"")) ∧
      legacyCommitCommand onlyRelease args =
        some (str "git commit -m \"🚀  RELEASE: " ++ (args ++ str "\"")) ∧
      legacyCommitCommand onlyNew args =
        some (str "git commit -m \"📦  NEW: " ++ (args ++ str "\"")) ∧
      legacyCommitCommand onlyDoc args =
        some (str "git commit -m \"📖  DOC: " ++ (args ++ str "\"")) ∧
      legacyCommitCommand onlyTry args =
        some (str "git commit -m \"🤞  TRY: " ++ (args ++ str "\"")) ∧
      legacyCommitCommand onlyTest args =
        some (str "git commit -m \"✅  TEST: " ++ (args ++ str "\"")) ∧
      [str "💅  STYLE", str "🐛  BUG", str "⚡  IMPROVE", str "🚀  RELEASE",
        str "📦  NEW", str "📖  DOC", str "🤞  TRY", str "✅  TEST"].Nodup ∧
      currentOptionShorts.Nodup ∧
      (∀ i j : Fin legacyOptions.length,
        (legacyOptions.get i).short = (legacyOptions.get j).short →
        i.val = j.val ∨ (i.val = 3 ∧ j.val = 6) ∨ (i.val = 6 ∧ j.val = 3)) := by
  intro args
  refine ⟨?_, ?_, ?_, ?_, ?_, ?_, ?_, ?_, by decide, by decide, by decide⟩
  · rw [show legacyCommitCommand onlyStyle args =
        some ((((str "git commit -m \"" ++ str "💅  STYLE") ++ str ": ") ++
          args) ++ str "\"") from rfl,
      show (str "git commit -m \"" ++ str "💅  STYLE") ++ str ": " =
        str "git commit -m \"💅  STYLE: " from by decide,
      List.append_assoc]
  · rw [show legacyCommitCommand onlyBug args =
        some ((((str "git commit -m \"" ++ str "🐛  BUG") ++ str ": ") ++
          args) ++ str "\"") from rfl,
      show (str "git commit -m \"" ++ str "🐛  BUG") ++ str ": " =
        str "git commit -m \"🐛  BUG: " from by decide,
      List.append_assoc]
  · rw [show legacyCommitCommand onlyImprove args =
        some ((((str "git commit -m \"" ++ str "⚡  IMPROVE") ++ str ": ") ++
          args) ++ str "\"") from rfl,
      show (str "git commit -m \"" ++ str "⚡  IMPROVE") ++ str ": " =
        str "git commit -m \"⚡  IMPROVE: " from by decide,
      List.append_assoc]
  · rw [show legacyCommitCommand onlyRelease args =
        some ((((str "git commit -m \"" ++ str "🚀  RELEASE") ++ str ": ") ++
          args) ++ str "\"") from rfl,
      show (str "git commit -m \"" ++ str "🚀  RELEASE") ++ str ": " =
        str "git commit -m \"🚀  RELEASE: " from by decide,
      List.append_assoc]
  · rw [show legacyCommitCommand onlyNew args =
        some ((((str "git commit -m \"" ++ str "📦  NEW") ++ str ": ") ++
          args) ++ str "\"") from rfl,
      show (str "git commit -m \"" ++ str "📦  NEW") ++ str ": " =
        str "git commit -m \"📦  NEW: " from by decide,
      List.append_assoc]
  · rw [show legacyCommitCommand onlyDoc args =
        some ((((str "git commit -m \"" ++ str "📖  DOC") ++ str ": ") ++
          args) ++ str "\"") from rfl,
      show (str "git commit -m \"" ++ str "📖  DOC") ++ str ": " =
        str "git commit -m \"📖  DOC: " from by decide,
      List.append_assoc]
  · rw [show legacyCommitCommand onlyTry args =
        some ((((str "git commit -m \"" ++ str "🤞  TRY") ++ str ": ") ++
          args) ++ str "\"") from rfl,
      show (str "git commit -m \"" ++ str "🤞  TRY") ++ str ": " =
        str "git commit -m \"🤞  TRY: " from by decide,
      List.append_assoc]
  · rw [show legacyCommitCommand onlyTest args =
        some ((((str "git commit -m \"" ++ str "✅  TEST") ++ str ": ") ++
          args) ++ str "\"") from rfl,
      show (str "git commit -m \"" ++ str "✅  TEST") ++ str ": " =
        str "git commit -m \"✅  TEST: " from by decide,
      List.append_assoc]

/-- Witness for the amended C3 at a concrete message and at the -r
index pair. -/
theorem C3_amended_flag_dispatch_witness :
    legacyCommitCommand onlyStyle (str "hello") =
      some (str "git commit -m \"💅  STYLE: " ++ (str "hello" ++ str "\"")) ∧
    ((3 : Nat) = 6 ∨ ((3 : Nat) = 3 ∧ (6 : Nat) = 6) ∨
      ((3 : Nat) = 6 ∧ (6 : Nat) = 3)) :=
  ⟨(C3_amended_flag_dispatch (str "hello")).1,
    (C3_amended_flag_dispatch
        (str "hello")).2.2.2.2.2.2.2.2.2.2
      ⟨3, by decide⟩ ⟨6, by decide⟩ (by decide)⟩

/-- Concrete run with an empty staging area: `git diff --cached
--name-only` succeeds printing nothing, and no free-text argument is
given. -/
def emptyStagingInput : MainInput :=
  ⟨false, [], none, true, true, str "msg", str "feat 📦: new feature",
    ExecOutcome.success [] [], str "1.0.0", str "1.0.0"⟩

/-- Claim C4 (code bug): with nothing staged the diff listing is the
empty string, `"".trim().split("\n")` is `[""]` of length 1 and never
the empty array, so main skips the no-files report and instead shows
the questions and spawns a commit. -/
theorem C4_empty_staging_not_reported :
    getStagedFiles [] = [[]] ∧
    (getStagedFiles []).length = 1 ∧
    Event.consoleLog noFilesMsg ∉ (mainRun emptyStagingInput).events ∧
    Event.promptMessageShown ∈ (mainRun emptyStagingInput).events ∧
    Event.promptTypeShown ∈ (mainRun emptyStagingInput).events ∧
    Event.execCommit (str "feat 📦: new feature") (str "msg") ∈
      (mainRun emptyStagingInput).events := by decide

/-- Claim C5: whenever a staged path contains node_modules the run
shows the node-modules confirmation before anything else; declining
yields exactly the confirmation and the cancellation line and spawns
nothing, and any run that does spawn the commit had the confirmation
answered yes. -/
theorem C5_node_modules_gate :
    ∀ inp : MainInput, inp.learn = false →
      (getStagedFiles inp.stagedStdout).any
          (fun f => strIncludes f nodeModulesStr) = true →
      ((mainRun inp).events.head? = some Event.confirmNodeModulesShown) ∧
      (inp.nmProceed = false →
        (mainRun inp).events =
          [Event.confirmNodeModulesShown, Event.consoleLog cancelMsg]) ∧
      (∀ t m : Str, Event.execCommit t m ∈ (mainRun inp).events →
        inp.nmProceed = true) := by
  intro inp hl hnm
  rcases mainEvents_characterization inp with
    ⟨h1, _⟩ | ⟨_, h2, _⟩ | ⟨_, _, _, hP, hE⟩ | ⟨_, _, _, hP, _, _, hE⟩ |
    ⟨_, _, hN, _, _, _⟩ | ⟨_, _, _, hP, _, _, hE⟩ | ⟨_, _, _, hP, _, hE⟩ |
    ⟨_, _, hN, _, _, _⟩ | ⟨_, _, hN, _, _⟩
  · exact absurd h1 (by simp [hl])
  · exfalso
    rw [List.length_eq_zero] at h2
    rw [h2] at hnm
    simp at hnm
  · refine ⟨?_, ?_, ?_⟩
    · simp only [mainRun]; rw [hE]; rfl
    · intro _; simp only [mainRun]; rw [hE]
    · intro t m hmem
      simp only [mainRun] at hmem
      rw [hE] at hmem
      simp at hmem
  · refine ⟨?_, ?_, ?_⟩
    · simp only [mainRun]; rw [hE]; rfl
    · intro hq; rw [hP] at hq; simp at hq
    · intro t m _; exact hP
  · exfalso; rw [hnm] at hN; simp at hN
  · refine ⟨?_, ?_, ?_⟩
    · simp only [mainRun]; rw [hE]; rfl
    · intro hq; rw [hP] at hq; simp at hq
    · intro t m _; exact hP
  · refine ⟨?_, ?_, ?_⟩
    · simp only [mainRun]; rw [hE]; rfl
    · intro hq; rw [hP] at hq; simp at hq
    · intro t m _; exact hP
  · exfalso; rw [hnm] at hN; simp at hN
  · exfalso; rw [hnm] at hN; simp at hN

/-- Concrete run for the C5 witness: node_modules staged, confirmation
declined. -/
def nmStagingInput : MainInput :=
  ⟨false, str "node_modules/left-pad/index.js", some (str "hello"), false,
    true, str "msg", str "t", ExecOutcome.success [] [], str "1.0.0",
    str "1.0.0"⟩

/-- Witness for C5 at a concrete declined run. -/
theorem C5_node_modules_gate_witness :
    (getStagedFiles nmStagingInput.stagedStdout).any
        (fun f => strIncludes f nodeModulesStr) = true ∧
    (mainRun nmStagingInput).events =
      [Event.confirmNodeModulesShown, Event.consoleLog cancelMsg] :=
  ⟨by decide, (C5_node_modules_gate nmStagingInput rfl (by decide)).2.1 rfl⟩

/-- Claim C6: the many-files confirmation appears only when the staged
count strictly exceeds 30, never at 30 or fewer; a run that spawns the
commit with more than 30 staged files showed the confirmation and had
it answered yes; and declining it leaves the commit unspawned. -/
theorem C6_many_files_gate :
    ∀ inp : MainInput,
      ((getStagedFiles inp.stagedStdout).length ≤
          STAGED_FILES_WARNING_THRESHOLD →
        Event.confirmManyFilesShown ∉ (mainRun inp).events) ∧
      (Event.confirmManyFilesShown ∈ (mainRun inp).events →
        STAGED_FILES_WARNING_THRESHOLD <
          (getStagedFiles inp.stagedStdout).length) ∧
      ((∃ t m : Str, Event.execCommit t m ∈ (mainRun inp).events) →
        STAGED_FILES_WARNING_THRESHOLD <
          (getStagedFiles inp.stagedStdout).length →
        Event.confirmManyFilesShown ∈ (mainRun inp).events ∧
          inp.manyProceed = true) ∧
      (STAGED_FILES_WARNING_THRESHOLD <
          (getStagedFiles inp.stagedStdout).length →
        inp.manyProceed = false →
        ∀ t m : Str, Event.execCommit t m ∉ (mainRun inp).events) := by
  intro inp
  have hmem2 : Event.confirmManyFilesShown ∈ (mainRun inp).events →
      STAGED_FILES_WARNING_THRESHOLD <
        (getStagedFiles inp.stagedStdout).length := by
    intro h
    simp only [mainRun] at h
    rcases mainEvents_characterization inp with
      ⟨_, hE⟩ | ⟨_, _, hE⟩ | ⟨_, _, _, _, hE⟩ | ⟨_, _, _, _, hM, _, hE⟩ |
      ⟨_, _, _, hM, _, hE⟩ | ⟨_, _, _, _, hM, _, hE⟩ | ⟨_, _, _, _, hM, hE⟩ |
      ⟨_, _, _, hM, _, hE⟩ | ⟨_, _, _, hM, hE⟩ <;> rw [hE] at h
    · simp at h
    · simp at h
    · simp at h
    · exact hM
    · exact hM
    · exact hM
    · exfalso
      simp only [List.mem_cons] at h
      rcases h with h | h
      · simp at h
      · exact confirmMany_not_mem_commitPhase inp h
    · exact hM
    · exact absurd h (confirmMany_not_mem_commitPhase inp)
  have hcommit : ∀ t m : Str, Event.execCommit t m ∈ (mainRun inp).events →
      STAGED_FILES_WARNING_THRESHOLD <
        (getStagedFiles inp.stagedStdout).length →
      Event.confirmManyFilesShown ∈ (mainRun inp).events ∧
        inp.manyProceed = true := by
    intro t m h hM'
    simp only [mainRun] at h ⊢
    rcases mainEvents_characterization inp with
      ⟨_, hE⟩ | ⟨_, _, hE⟩ | ⟨_, _, _, _, hE⟩ | ⟨_, _, _, _, _, _, hE⟩ |
      ⟨_, _, _, _, _, hE⟩ | ⟨_, _, _, _, _, hQ, hE⟩ | ⟨_, _, _, _, hM, hE⟩ |
      ⟨_, _, _, _, hQ, hE⟩ | ⟨_, _, _, hM, hE⟩ <;> rw [hE] at h <;> rw [hE]
    · simp at h
    · simp at h
    · simp at h
    · simp at h
    · simp at h
    · exact ⟨by simp, hQ⟩
    · exact absurd hM' hM
    · exact ⟨by simp, hQ⟩
    · exact absurd hM' hM
  refine ⟨?_, hmem2, ?_, ?_⟩
  · intro hle hmem
    exact absurd (hmem2 hmem) (not_lt.mpr hle)
  · rintro ⟨t, m, hmem⟩ hM
    exact hcommit t m hmem hM
  · intro hM hQ t m hmem
    have := (hcommit t m hmem hM).2
    rw [hQ] at this
    simp at this

/-- Concrete run for the C6 witness, small side: one staged file. -/
def oneFileInput : MainInput :=
  ⟨false, str "a.txt", some (str "hello"), true, true, str "msg", str "t",
    ExecOutcome.success [] [], str "1.0.0", str "1.0.0"⟩

/-- Concrete run for the C6 witness, large side: 31 staged files and a
declined confirmation. -/
def thirtyOneFilesInput : MainInput :=
  ⟨false,
    str "a\nb\nc\nd\ne\nf\ng\nh\ni\nj\nk\nl\nm\nn\no\np\nq\nr\ns\nt\nu\nv\nw\nx\ny\nz\naa\nab\nac\nad\nae",
    some (str "hello"), true, false, str "msg", str "t",
    ExecOutcome.success [] [], str "1.0.0", str "1.0.0"⟩

/-- Witness for C6: no prompt at one staged file; at 31 staged files
with the confirmation declined, no commit is spawned. -/
theorem C6_many_files_gate_witness :
    ((getStagedFiles oneFileInput.stagedStdout).length ≤
        STAGED_FILES_WARNING_THRESHOLD ∧
      Event.confirmManyFilesShown ∉ (mainRun oneFileInput).events) ∧
    (STAGED_FILES_WARNING_THRESHOLD <
        (getStagedFiles thirtyOneFilesInput.stagedStdout).length ∧
      thirtyOneFilesInput.manyProceed = false ∧
      Event.execCommit (str "t") (str "hello") ∉
        (mainRun thirtyOneFilesInput).events) :=
  ⟨⟨by decide, (C6_many_files_gate oneFileInput).1 (by decide)⟩,
    ⟨by decide, rfl,
      (C6_many_files_gate thirtyOneFilesInput).2.2.2 (by decide) rfl
        (str "t") (str "hello")⟩⟩

/-- Concrete run for the C9 counterexample: one ordinary staged file, a
free-text message without a recognized head, commit rejected with exit
code 1. -/
def commitFailInput : MainInput :=
  ⟨false, str "a.txt", some (str "hello"), true, true, str "msg",
    str "feat 📦: new feature", ExecOutcome.failure 1, str "1.0.0",
    str "1.0.0"⟩

/-- Claim C9 counterexample: the spawned commit fails (exit code 1, the
unknown-error line is printed on the console) yet the process exit
status of the run is 0 — the run does not exit unsuccessfully when the
commit command fails. -/
theorem C9_counterexample_exit_zero_on_failure :
    commitFailInput.commitExec = ExecOutcome.failure 1 ∧
    Event.execCommit (str "feat 📦: new feature") (str "hello") ∈
      (mainRun commitFailInput).events ∧
    Event.consoleError unknownErrorMsg ∈ (mainRun commitFailInput).events ∧
    (mainRun commitFailInput).exitCode = 0 := by decide

/-- Claim C9 (amended): the script never calls process.exit and
makeCommit catches every commit error, so the process exit status is 0
on every modelled run; commit failures are reported on the console only
and never reflected in the exit status. -/
theorem C9_amended_exit_always_zero :
    ∀ inp : MainInput, (mainRun inp).exitCode = 0 := fun _ => rfl

/-- Claim C10: with a free-text message bearing a recognized type head
the run spawns no process at all — no git commit and no npm query —
and on the path that passes the staged-files gates it prints exactly
the looks-good line and ends. -/
theorem C10_recognized_head_no_commit :
    ∀ (inp : MainInput) (msg : Str), inp.args0 = some msg →
      (findCommitType msg).isSome = true →
      (∀ t m : Str, Event.execCommit t m ∉ (mainRun inp).events) ∧
      Event.execNpmShow ∉ (mainRun inp).events ∧
      (inp.learn = false →
        (getStagedFiles inp.stagedStdout).any
          (fun f => strIncludes f nodeModulesStr) = false →
        (getStagedFiles inp.stagedStdout).length ≤
          STAGED_FILES_WARNING_THRESHOLD →
        (mainRun inp).events = [Event.consoleLog looksGoodMsg]) := by
  intro inp msg h0 hs
  have hcp : commitPhase inp = [Event.consoleLog looksGoodMsg] :=
    commitPhase_recognized h0 hs
  refine ⟨?_, ?_, ?_⟩
  · intro t m hmem
    have h := execCommit_mem_mainEvents hmem
    rw [hcp] at h
    simp at h
  · intro hmem
    have h := nonGate_mem_mainEvents hmem (by simp) (by simp) (by simp)
      (by simp) (by simp)
    rw [hcp] at h
    simp at h
  · intro hl hnm hle
    rcases mainEvents_characterization inp with
      ⟨h1, _⟩ | ⟨_, h2, _⟩ | ⟨_, _, hN, _, _⟩ | ⟨_, _, hN, _, _, _, _⟩ |
      ⟨_, _, _, hM, _, _⟩ | ⟨_, _, hN, _, _, _, _⟩ | ⟨_, _, hN, _, _, _⟩ |
      ⟨_, _, _, hM, _, _⟩ | ⟨_, _, _, _, hE⟩
    · exact absurd h1 (by simp [hl])
    · exact absurd h2 (Nat.pos_iff_ne_zero.mp
        (getStagedFiles_length_pos inp.stagedStdout))
    · rw [hnm] at hN; exact absurd hN (by simp)
    · rw [hnm] at hN; exact absurd hN (by simp)
    · exact absurd hM (not_lt.mpr hle)
    · rw [hnm] at hN; exact absurd hN (by simp)
    · rw [hnm] at hN; exact absurd hN (by simp)
    · exact absurd hM (not_lt.mpr hle)
    · simp only [mainRun]; rw [hE, hcp]

/-- Concrete run for the C10 witness: ordinary staged file, message
bearing the fix head. -/
def recognizedFrameInput : MainInput :=
  ⟨false, str "a.txt", some (str "🐛  fix: null check"), true, true,
    str "msg", str "t", ExecOutcome.success [] [], str "1.0.0",
    str "1.0.0"⟩

/-- Witness for C10 at a concrete run. -/
theorem C10_recognized_head_no_commit_witness :
    Event.execCommit (str "t") (str "🐛  fix: null check") ∉
      (mainRun recognizedFrameInput).events ∧
    (mainRun recognizedFrameInput).events = [Event.consoleLog looksGoodMsg] :=
  ⟨(C10_recognized_head_no_commit recognizedFrameInput
      (str "🐛  fix: null check") rfl (by decide)).1 (str "t")
      (str "🐛  fix: null check"),
    (C10_recognized_head_no_commit recognizedFrameInput
      (str "🐛  fix: null check") rfl (by decide)).2.2 rfl (by decide)
      (by decide)⟩
